import Mathlib

/-!
Verification development for the `RankingXadrezJovem` repository.

The repository fetches chess ratings for team members from a public API,
validates and normalizes them (`src/ranking.py`), deduplicates, filters by
recent activity, ranks players and computes deltas against a previous
snapshot (`src/scripts/generate_data.py`), and serves the result through a
paginated JSON endpoint (`src/ranking.py`, `api_players`).

The Python code is shallowly embedded: JSON values become the inductive
`JVal`; Python's `int()` / `float()` coercions, truthiness and `or` become
`safe_int`, `truthy` and `pyOr`; code that can raise runs in `Except Unit`
and the `try/except` wrappers become total functions over the `Except`
result.
-/

/-- A JSON value, as produced by `resp.json()` in the Python sources. -/
inductive JVal where
  | null
  | bool (b : Bool)
  | num (q : ℚ)
  | str (s : String)
  | arr (xs : List JVal)
  | obj (kvs : List (String × JVal))

/-- Python truthiness of a JSON-derived value (`bool(v)`). -/
def truthy : JVal → Bool
  | .null => false
  | .bool b => b
  | .num q => decide (q ≠ 0)
  | .str s => decide (s ≠ "")
  | .arr xs => !xs.isEmpty
  | .obj kvs => !kvs.isEmpty

/-- Python `a or b` on JSON-derived values. -/
def pyOr (a b : JVal) : JVal := if truthy a then a else b

/-- Lookup in a string-keyed association list modelling a Python `dict`. -/
def alookup {α : Type} : List (String × α) → String → Option α
  | [], _ => none
  | (k, v) :: rest, key => if k = key then some v else alookup rest key

/-- `d.get(key, default)`: succeeds only on a dict, raises (`AttributeError`)
on any other receiver. -/
def pyGetE (v : JVal) (key : String) (dflt : JVal) : Except Unit JVal :=
  match v with
  | .obj kvs => .ok ((alookup kvs key).getD dflt)
  | _ => .error ()

/-- `d.get(key)` on a value already known to be a dict (`None` default). -/
def obj_get (data : JVal) (key : String) : JVal :=
  match data with
  | .obj kvs => (alookup kvs key).getD .null
  | _ => .null

def isObj : JVal → Bool
  | .obj _ => true
  | _ => false

def isNull : JVal → Bool
  | .null => true
  | _ => false

/-- Python `int(float)` truncates toward zero. -/
def pyTrunc (q : ℚ) : ℤ := if 0 ≤ q then ⌊q⌋ else ⌈q⌉

/-- Numeric value of a list of decimal digit characters. -/
def digitsNat (cs : List Char) : ℕ :=
  cs.foldl (fun acc c => acc * 10 + (c.toNat - 48)) 0

def allDigits (cs : List Char) : Bool := !cs.isEmpty && cs.all Char.isDigit

/-- `str.strip()`: drop surrounding whitespace. -/
def trimChars (cs : List Char) : List Char :=
  ((cs.dropWhile Char.isWhitespace).reverse.dropWhile Char.isWhitespace).reverse

/-- Python `int(s)` on a string: optional surrounding whitespace, optional
sign, decimal digits; `none` models the `ValueError` path. -/
def py_int_of_string? (s : String) : Option ℤ :=
  match trimChars s.toList with
  | '-' :: rest => if allDigits rest then some (-(digitsNat rest : ℤ)) else none
  | '+' :: rest => if allDigits rest then some (digitsNat rest : ℤ) else none
  | cs => if allDigits cs then some (digitsNat cs : ℤ) else none

/-- Unsigned part of Python `float(s)`: digits, optionally with one decimal
point; at least one digit overall. -/
def py_float_core? (cs : List Char) : Option ℚ :=
  let ip := cs.takeWhile (· ≠ '.')
  let rest := cs.dropWhile (· ≠ '.')
  match rest with
  | [] => if allDigits ip then some (mkRat (digitsNat ip : ℤ) 1) else none
  | _ :: fp =>
    if fp.contains '.' then none
    else if (ip.all Char.isDigit && fp.all Char.isDigit) && (!ip.isEmpty || !fp.isEmpty) then
      some (mkRat ((digitsNat ip * 10 ^ fp.length + digitsNat fp : ℕ) : ℤ) (10 ^ fp.length))
    else none

/-- Python `float(s)` on a string (`none` models the `ValueError` path). -/
def py_float_of_string? (s : String) : Option ℚ :=
  match trimChars s.toList with
  | '-' :: rest => (py_float_core? rest).map (fun q => -q)
  | '+' :: rest => py_float_core? rest
  | cs => py_float_core? cs

/-- `safe_int` from `src/ranking.py`: `int(v)`, falling back to
`int(float(v))`, falling back to `0`. -/
def safe_int : JVal → ℤ
  | .null => 0
  | .bool b => if b then 1 else 0
  | .num q => pyTrunc q
  | .str s =>
    match py_int_of_string? s with
    | some n => n
    | none =>
      match py_float_of_string? s with
      | some q => pyTrunc q
      | none => 0
  | .arr _ => 0
  | .obj _ => 0

/-- Upper-case hexadecimal digit. -/
def hexDigit (n : ℕ) : Char := if n < 10 then Char.ofNat (48 + n) else Char.ofNat (55 + n)

/-- UTF-8 encoding of one character, as a list of byte values. -/
def utf8Enc (c : Char) : List ℕ :=
  let n := c.toNat
  if n < 0x80 then [n]
  else if n < 0x800 then [0xC0 + n / 0x40, 0x80 + n % 0x40]
  else if n < 0x10000 then [0xE0 + n / 0x1000, 0x80 + (n / 0x40) % 0x40, 0x80 + n % 0x40]
  else [0xF0 + n / 0x40000, 0x80 + (n / 0x1000) % 0x40, 0x80 + (n / 0x40) % 0x40, 0x80 + n % 0x40]

/-- Bytes kept verbatim by `urllib.parse.quote` with the default `safe="/"`:
ASCII letters, digits, `_ . - ~` and `/`. -/
def quoteSafeByte (b : ℕ) : Bool :=
  (65 ≤ b && b ≤ 90) || (97 ≤ b && b ≤ 122) || (48 ≤ b && b ≤ 57) ||
  b = 95 || b = 46 || b = 45 || b = 126 || b = 47

/-- `urllib.parse.quote(s)`: percent-encode the UTF-8 bytes of `s`. -/
def py_quote (s : String) : String :=
  String.mk (((s.toList.map utf8Enc).flatten).foldr
    (fun b acc =>
      (if quoteSafeByte b then [Char.ofNat b]
       else ['%', hexDigit (b / 16), hexDigit (b % 16)]) ++ acc) [])

/-! ## `src/ranking.py`: the User Fetcher -/

/-- The normalized record returned by `fetch_user_once`. -/
structure PlayerRec where
  username : String
  blitz : ℤ
  bullet : ℤ
  rapid : ℤ
  seenAt : ℤ
  profile : String
deriving DecidableEq

/-- One profile-endpoint interaction, as observed by `fetch_user_once`:
either the HTTP call raises, or it yields a status code together with the
result of `resp.json()` (`none` when JSON parsing raises). -/
inductive FetchInput where
  | netError
  | resp (status : ℕ) (body : Option JVal)

/-- `perfs.get(key, {}).get("rating")` after
`perfs = data.get("perfs", {}) or {}`, in the raising (`Except`) embedding. -/
def perf_rating_raw (data : JVal) (key : String) : Except Unit JVal :=
  match pyGetE data "perfs" (.obj []) with
  | .error e => .error e
  | .ok perfsRaw =>
    match pyGetE (pyOr perfsRaw (.obj [])) key (.obj []) with
    | .error e => .error e
    | .ok perfEntry => pyGetE perfEntry "rating" .null

/-- `safe_int(data.get("seenAt") or data.get("seen_at") or 0)`. -/
def seen_at_val (data : JVal) : ℤ :=
  safe_int (pyOr (obj_get data "seenAt") (pyOr (obj_get data "seen_at") (.num 0)))

/-- Body of the `try` block of `fetch_user_once`: an `.error` is an
uncaught Python exception reaching the `except` handler. -/
def fetch_user_onceE (username : String) (input : FetchInput) : Except Unit (Option PlayerRec) :=
  match input with
  | .netError => .error ()
  | .resp status body =>
    if status ≠ 200 then .ok none
    else
      match body with
      | none => .error ()
      | some data =>
        if !isObj data then .ok none
        else
          match perf_rating_raw data "blitz" with
          | .error e => .error e
          | .ok blitzRaw =>
            if isNull blitzRaw then .ok none
            else if safe_int blitzRaw ≤ 0 then .ok none
            else
              match perf_rating_raw data "bullet" with
              | .error e => .error e
              | .ok bulletRaw =>
                match perf_rating_raw data "rapid" with
                | .error e => .error e
                | .ok rapidRaw =>
                  .ok (some {
                    username := username
                    blitz := safe_int blitzRaw
                    bullet := safe_int (pyOr bulletRaw (.num 0))
                    rapid := safe_int (pyOr rapidRaw (.num 0))
                    seenAt := seen_at_val data
                    profile := "https://lichess.org/@/" ++ py_quote username })

/-- `fetch_user_once` from `src/ranking.py`: the `try` body with every
exception converted to `None`. -/
def fetch_user_once (username : String) (input : FetchInput) : Option PlayerRec :=
  match fetch_user_onceE username input with
  | .ok r => r
  | .error _ => none

/-! ## `src/ranking.py`: Retry Coordinator and activity filter -/

def RETRY_ATTEMPTS : ℕ := 3

def ACTIVE_DAYS : ℤ := 30

/-- Runs `fetch_user_once` attempts `start, start+1, …` (at most `n` of
them) against an abstract per-attempt outcome `f`, stopping at the first
non-`None` result — the retry loop shape shared by both phases of
`load_players`. -/
def tryAttempts (f : ℕ → Option PlayerRec) : ℕ → ℕ → Option PlayerRec
  | _, 0 => none
  | start, n + 1 =>
    match f start with
    | some r => some r
    | none => tryAttempts f (start + 1) n

/-- `fetch_user_with_retries` from `src/ranking.py`: attempts `1..RETRY_ATTEMPTS`
of the single-attempt fetcher. -/
def fetch_user_with_retries (f : ℕ → Option PlayerRec) : Option PlayerRec :=
  tryAttempts f 1 RETRY_ATTEMPTS

/-- The sequential reconciliation loop of `load_players`:
`RETRY_ATTEMPTS + 1` further attempts for a username that failed phase 1. -/
def sequential_retry (f : ℕ → Option PlayerRec) : Option PlayerRec :=
  tryAttempts f (RETRY_ATTEMPTS + 1) (RETRY_ATTEMPTS + 1)

/-- The fetch portion of `load_players`: phase 1 over all members, then the
sequential phase over the usernames that failed phase 1.  `oracle u k` is
the outcome of the `k`-th single attempt for username `u` (attempts are
numbered across both phases); membership in the result is independent of
the thread-pool completion order, which only permutes `phase1`. -/
def load_players_fetch (members : List String) (oracle : String → ℕ → Option PlayerRec) :
    List PlayerRec :=
  if members.isEmpty then []
  else
    members.filterMap (fun m => fetch_user_with_retries (oracle m)) ++
      (members.filter (fun m => (fetch_user_with_retries (oracle m)).isNone)).filterMap
        (fun m => sequential_retry (oracle m))

/-- Number of single attempts `tryAttempts` actually performs. -/
def attemptsUsed (f : ℕ → Option PlayerRec) : ℕ → ℕ → ℕ
  | _, 0 => 0
  | start, n + 1 =>
    match f start with
    | some _ => 1
    | none => 1 + attemptsUsed f (start + 1) n

/-- Total single attempts spent on one username across both phases. -/
def total_attempts (f : ℕ → Option PlayerRec) : ℕ :=
  if (fetch_user_with_retries f).isSome then attemptsUsed f 1 RETRY_ATTEMPTS
  else attemptsUsed f 1 RETRY_ATTEMPTS + attemptsUsed f (RETRY_ATTEMPTS + 1) (RETRY_ATTEMPTS + 1)

/-- `cutoff_ms = now_ms - ACTIVE_DAYS * 24 * 3600 * 1000` in `load_players`. -/
def cutoff_ms (nowMs activeDays : ℤ) : ℤ := nowMs - activeDays * 24 * 3600 * 1000

/-- The list comprehension
`[p for p in players if p.get("seenAt", 0) >= cutoff_ms]` of `load_players`. -/
def load_players_filter (nowMs activeDays : ℤ) (players : List PlayerRec) : List PlayerRec :=
  players.filter (fun p => decide (cutoff_ms nowMs activeDays ≤ p.seenAt))

/-- `load_players` as a pure function of the roster, the per-attempt fetch
outcomes, and the clock: fetch with retries, then filter by activity. -/
def load_players (members : List String) (oracle : String → ℕ → Option PlayerRec)
    (nowMs : ℤ) : List PlayerRec :=
  load_players_filter nowMs ACTIVE_DAYS (load_players_fetch members oracle)

/-! ## `src/ranking.py`: the `/api/players` endpoint -/

/-- ASCII lowering, modelling `str.lower()` on the usernames in play. -/
def lowerChar (c : Char) : Char :=
  if 'A' ≤ c && c ≤ 'Z' then Char.ofNat (c.toNat + 32) else c

def lowerStr (s : String) : String := String.mk (s.toList.map lowerChar)

/-- The query parameters of a `GET /api/players` request (`none` = absent). -/
structure Args where
  page : Option String
  per_page : Option String
  sort : Option String
  order : Option String

/-- `max(1, int(request.args.get("page", 1)))` with the `except` fallback. -/
def page_of (a : Option String) : ℤ :=
  match a with
  | none => 1
  | some s =>
    match py_int_of_string? s with
    | some n => max 1 n
    | none => 1

/-- `max(1, int(request.args.get("per_page", 20)))` with the `except` fallback. -/
def per_page_of (a : Option String) : ℤ :=
  match a with
  | none => 20
  | some s =>
    match py_int_of_string? s with
    | some n => max 1 n
    | none => 20

/-- `sort` validation: anything outside `("blitz","bullet","rapid","username")`
falls back to `"blitz"`. -/
def sort_of (a : Option String) : String :=
  let s := a.getD "blitz"
  if s = "blitz" || s = "bullet" || s = "rapid" || s = "username" then s else "blitz"

/-- `x.get(sort, 0)` for the numeric sort keys. -/
def numField (sort : String) (p : PlayerRec) : ℤ :=
  if sort = "blitz" then p.blitz
  else if sort = "bullet" then p.bullet
  else if sort = "rapid" then p.rapid
  else 0

/-- `sorted(PLAYERS, key=..., reverse=reverse)`: a stable sort; with
`reverse` the comparison is flipped while ties keep their original order.
(`List.insertionSort` is stable, so on this total preorder it returns the
same list as CPython's stable sort.) -/
def api_sorted (players : List PlayerRec) (sort : String) (reverse : Bool) : List PlayerRec :=
  if sort = "username" then
    players.insertionSort (fun a b =>
      if reverse then lowerStr b.username ≤ lowerStr a.username
      else lowerStr a.username ≤ lowerStr b.username)
  else
    players.insertionSort (fun a b =>
      if reverse then numField sort b ≤ numField sort a
      else numField sort a ≤ numField sort b)

/-- The successful JSON payload of `/api/players`. -/
structure ApiPayload where
  total : ℕ
  page : ℤ
  per_page : ℤ
  sort : String
  order : String
  data_loaded_at : ℤ
  items : List PlayerRec
deriving DecidableEq

/-- Either the 503 "dados não carregados ainda" error or a 200 payload. -/
inductive ApiResponse where
  | notLoaded
  | ok (payload : ApiPayload)
deriving DecidableEq

/-- `api_players` from `src/ranking.py`, as a function of the in-memory
player list, `DATA_LOADED_AT`, and the request arguments. -/
def api_players (players : List PlayerRec) (dataLoadedAt : ℤ) (args : Args) : ApiResponse :=
  if players.isEmpty then .notLoaded
  else
    let page := page_of args.page
    let perPage := per_page_of args.per_page
    let sort := sort_of args.sort
    let order := args.order.getD "desc"
    let reverse := order ≠ "asc"
    let data := api_sorted players sort reverse
    let start := ((page - 1) * perPage).toNat
    .ok {
      total := data.length
      page := page
      per_page := perPage
      sort := sort
      order := order
      data_loaded_at := dataLoadedAt
      items := (data.drop start).take perPage.toNat }

/-! ## `src/scripts/generate_data.py`: dedup, activity filter, ranking, deltas -/

/-- A record as returned by `fetch_user` in `generate_data.py`: ratings and
`seenAt` are taken from the JSON unvalidated, so they may be null (`none`);
`recent_*_diff` come from the rating-history endpoint. -/
structure GPlayer where
  username : String
  name : String
  profile : String
  blitz : Option ℤ
  bullet : Option ℤ
  rapid : Option ℤ
  seenAt : Option ℤ
  recent_blitz_diff : Option ℤ
  recent_bullet_diff : Option ℤ
  recent_rapid_diff : Option ℤ
deriving DecidableEq

/-- `score(p) = (p.get("blitz") or 0) + (p.get("bullet") or 0) + (p.get("rapid") or 0)`. -/
def gscore (p : GPlayer) : ℤ := p.blitz.getD 0 + p.bullet.getD 0 + p.rapid.getD 0

/-- `(p.get("username") or "").strip().lower()`. -/
def norm_key (s : String) : String := lowerStr (String.mk (trimChars s.toList))

/-- `byu[key] = p` on an insertion-ordered dict with `key` already present. -/
def dedup_update (byu : List (String × GPlayer)) (key : String) (p : GPlayer) :
    List (String × GPlayer) :=
  byu.map (fun kv => if kv.1 = key then (key, p) else kv)

/-- One iteration of the dedup loop of `generate_players_json`:
`if key not in byu or score(p) > score(byu[key]) or
(p.get("seenAt") or 0) > (byu[key].get("seenAt") or 0): byu[key] = p`. -/
def dedup_step (byu : List (String × GPlayer)) (p : GPlayer) : List (String × GPlayer) :=
  let key := norm_key p.username
  if key = "" then byu
  else
    match alookup byu key with
    | none => byu ++ [(key, p)]
    | some old =>
      if gscore p > gscore old ∨ p.seenAt.getD 0 > old.seenAt.getD 0 then
        dedup_update byu key p
      else byu

/-- The dedup dict `byu` after the whole loop, in insertion order. -/
def dedup (players : List GPlayer) : List (String × GPlayer) :=
  players.foldl dedup_step []

/-- `byu.values()`. -/
def dedup_values (players : List GPlayer) : List GPlayer :=
  (dedup players).map (·.2)

/-- `active_since_days` from `generate_data.py`: `seenAt` falsy means
inactive, otherwise the age in days (exact division, as the float division
of the source on these epoch-millisecond magnitudes) is compared with the
window. -/
def active_since_days (nowMs days : ℤ) (p : GPlayer) : Bool :=
  match p.seenAt with
  | none => false
  | some ts =>
    if ts = 0 then false
    else decide (((nowMs - ts : ℤ) : ℚ) / (24 * 3600 * 1000) ≤ (days : ℚ))

/-- The sort key `(-(blitz or 0), -(bullet or 0), -(rapid or 0))`. -/
def rank_key (p : GPlayer) : ℤ × ℤ × ℤ :=
  (-(p.blitz.getD 0), -(p.bullet.getD 0), -(p.rapid.getD 0))

/-- Lexicographic `≤` on integer triples — Python's tuple comparison. -/
def triple_le (x y : ℤ × ℤ × ℤ) : Bool :=
  decide (x.1 < y.1) ||
  (decide (x.1 = y.1) &&
    (decide (x.2.1 < y.2.1) || (decide (x.2.1 = y.2.1) && decide (x.2.2 ≤ y.2.2))))

/-- `active_sorted = sorted(active, key=rank_key)` (a stable sort, modelled
by the stable `List.insertionSort`). -/
def active_sorted (players : List GPlayer) : List GPlayer :=
  players.insertionSort (fun a b => triple_le (rank_key a) (rank_key b) = true)

/-- One entry of the previous snapshot's `players` array. -/
structure PrevPlayer where
  username : String
  blitz : Option ℤ
  bullet : Option ℤ
  rapid : Option ℤ
deriving DecidableEq

/-- The `(prev_map, prev_rank_map)` construction: enumerate the previous
snapshot, keep entries with a nonempty normalized username, rank is `idx+1`. -/
def prev_entries (prev : List PrevPlayer) : List (String × PrevPlayer × ℕ) :=
  prev.enum.filterMap (fun ip =>
    let k := norm_key ip.2.username
    if k = "" then none else some (k, ip.2, ip.1 + 1))

/-- Dict lookup in `prev_map` / `prev_rank_map`: the last write wins. -/
def prev_lookup (prev : List PrevPlayer) (key : String) : Option (PrevPlayer × ℕ) :=
  ((prev_entries prev).reverse.find? (fun e => decide (e.1 = key))).map (fun e => e.2)

/-- `rating_status` from `generate_data.py`. -/
def rating_status (diff : Option ℤ) : Option String :=
  match diff with
  | none => none
  | some d => if d > 0 then some "subiu" else if d < 0 then some "caiu" else some "manteve"

/-- A ranked output record of `generate_players_json`. -/
structure OutPlayer where
  username : String
  name : String
  profile : String
  blitz : Option ℤ
  bullet : Option ℤ
  rapid : Option ℤ
  seenAt : Option ℤ
  blitz_diff : ℤ
  bullet_diff : ℤ
  rapid_diff : ℤ
  position : ℕ
  position_change : Option ℤ
  position_arrow : Option String
  blitz_status : Option String
  bullet_status : Option String
  rapid_status : Option String
deriving DecidableEq

/-- The two post-sort loops of `generate_players_json`: per record, the name
sentinel, the rating diffs (previous-snapshot value, else rating-history
fallback, else 0), the 1-based `position`, and the position change against
the previous rank (absent previous rank gives `None`). -/
def attach_deltas (prev : List PrevPlayer) (sortedPlayers : List GPlayer) : List OutPlayer :=
  sortedPlayers.enum.map (fun ip =>
    let p := ip.2
    let entry := prev_lookup prev (norm_key p.username)
    let bd : ℤ :=
      match entry with
      | some (pp, _) => p.blitz.getD 0 - pp.blitz.getD 0
      | none => p.recent_blitz_diff.getD 0
    let bud : ℤ :=
      match entry with
      | some (pp, _) => p.bullet.getD 0 - pp.bullet.getD 0
      | none => p.recent_bullet_diff.getD 0
    let rd : ℤ :=
      match entry with
      | some (pp, _) => p.rapid.getD 0 - pp.rapid.getD 0
      | none => p.recent_rapid_diff.getD 0
    let pos : ℕ := ip.1 + 1
    let pc : Option ℤ :=
      match entry with
      | none => none
      | some (_, prevPos) => some ((prevPos : ℤ) - (pos : ℤ))
    { username := p.username
      name := if String.mk (trimChars p.name.toList) = "" then "Sem nome registrado" else p.name
      profile := p.profile
      blitz := p.blitz
      bullet := p.bullet
      rapid := p.rapid
      seenAt := p.seenAt
      blitz_diff := bd
      bullet_diff := bud
      rapid_diff := rd
      position := pos
      position_change := pc
      position_arrow :=
        match pc with
        | none => none
        | some c => some (if c > 0 then "▲" else if c < 0 then "▼" else "→")
      blitz_status := rating_status (some bd)
      bullet_status := rating_status (some bud)
      rapid_status := rating_status (some rd) })

/-- The ranking portion of `generate_players_json`: dedup, activity filter,
sort, then deltas against the previous snapshot. -/
def generate_players_json (players : List GPlayer) (prev : List PrevPlayer) (nowMs : ℤ) :
    List OutPlayer :=
  attach_deltas prev
    (active_sorted ((dedup_values players).filter (active_since_days nowMs ACTIVE_DAYS)))

/-! ## Helper characterizations of the User Fetcher -/

def except_ok {α : Type} : Except Unit α → Bool
  | .ok _ => true
  | .error _ => false

/-- The conditions under which `fetch_user_once` on a parsed 200 response
returns a record: object body, the blitz lookup does not raise, blitz is
not `None`, the coerced blitz is positive, and the bullet/rapid lookups do
not raise. -/
def profile_gate (data : JVal) : Bool :=
  isObj data &&
  (match perf_rating_raw data "blitz" with
   | .error _ => false
   | .ok blitzRaw =>
     !isNull blitzRaw && decide (1 ≤ safe_int blitzRaw) &&
     except_ok (perf_rating_raw data "bullet") && except_ok (perf_rating_raw data "rapid"))

/-- The blitz field of a retained record. -/
def blitz_val (data : JVal) : ℤ :=
  safe_int ((perf_rating_raw data "blitz").toOption.getD .null)

/-- The bullet/rapid field of a retained record:
`safe_int(perfs.get(key, {}).get("rating") or 0)`. -/
def rating_coerced (data : JVal) (key : String) : ℤ :=
  match perf_rating_raw data key with
  | .ok v => safe_int (pyOr v (.num 0))
  | .error _ => 0

/-- The record built by `fetch_user_once` when the gate passes. -/
def gate_record (u : String) (data : JVal) : Option PlayerRec :=
  if profile_gate data = true then
    some { username := u
           blitz := blitz_val data
           bullet := rating_coerced data "bullet"
           rapid := rating_coerced data "rapid"
           seenAt := seen_at_val data
           profile := "https://lichess.org/@/" ++ py_quote u }
  else none

lemma fetch_user_once_resp200 (u : String) (data : JVal) :
    fetch_user_once u (.resp 200 (some data)) = gate_record u data := by
  unfold fetch_user_once fetch_user_onceE gate_record profile_gate blitz_val rating_coerced
  cases hobj : isObj data with
  | false => simp [hobj]
  | true =>
    cases hb : perf_rating_raw data "blitz" with
    | error e => simp [hobj, hb]
    | ok braw =>
      cases hn : isNull braw with
      | true => simp [hobj, hb, hn]
      | false =>
        by_cases hle : safe_int braw ≤ 0
        · have h1 : ¬(1 ≤ safe_int braw) := by omega
          simp [hobj, hb, hn, hle, h1]
        · have h1 : 1 ≤ safe_int braw := by omega
          cases hbl : perf_rating_raw data "bullet" with
          | error e => simp [hobj, hb, hn, hle, h1, hbl, except_ok]
          | ok bulletRaw =>
            cases hr : perf_rating_raw data "rapid" with
            | error e => simp [hobj, hb, hn, hle, h1, hbl, hr, except_ok]
            | ok rapidRaw => simp [hobj, hb, hn, hle, h1, hbl, hr, except_ok, Except.toOption]

lemma gate_record_some {u : String} {data : JVal} {rec : PlayerRec}
    (h : gate_record u data = some rec) :
    profile_gate data = true ∧ rec.blitz = blitz_val data ∧
    rec.bullet = rating_coerced data "bullet" ∧ rec.rapid = rating_coerced data "rapid" ∧
    rec.seenAt = seen_at_val data := by
  unfold gate_record at h
  by_cases hg : profile_gate data = true
  · rw [if_pos hg] at h
    refine ⟨hg, ?_, ?_, ?_, ?_⟩ <;> { cases h; rfl }
  · rw [if_neg hg] at h
    cases h

lemma gate_true_blitz {data : JVal} (h : profile_gate data = true) : 1 ≤ blitz_val data := by
  unfold profile_gate at h
  unfold blitz_val
  cases hb : perf_rating_raw data "blitz" with
  | error e => rw [hb] at h; simp at h
  | ok braw =>
    rw [hb] at h
    simp only [Bool.and_eq_true, decide_eq_true_eq] at h
    simp only [Except.toOption, Option.getD_some]
    tauto

lemma safe_int_num_zero : safe_int (.num 0) = 0 := by
  simp [safe_int, pyTrunc]

/-! ## Claims about the User Fetcher (C2, C7, C8) -/

/-- A 200 response whose blitz rating coerces to 5 (positive) but whose
`bullet` perf entry is a bare number: the `.get` on it raises and the
record is rejected. -/
def c2_counter_body : JVal :=
  .obj [("perfs", .obj [("blitz", .obj [("rating", .num 5)]), ("bullet", .num 7)])]

/-- C2 counterexample: a profile response whose blitz rating coerces to 5
(at least 1) for which `fetch_user_once` nevertheless returns `None`,
because the malformed `bullet` perf entry raises inside the `try` block. -/
theorem c2_blitz_positive_but_rejected :
    perf_rating_raw c2_counter_body "blitz" = .ok (.num 5) ∧
    safe_int (.num 5) = 5 ∧
    fetch_user_once "alice" (.resp 200 (some c2_counter_body)) = none :=
  ⟨rfl, by decide, rfl⟩

/-- C2 (amended): `fetch_user_once` returns `None` on a network/parse
exception, a non-200 status, a non-object body, and exactly when
`profile_gate` fails on a parsed 200 body — in particular when blitz is
absent, null, non-numeric (`safe_int` ≤ 0) or non-positive, but also when
a bullet/rapid perf entry is malformed (non-dict).  When a record is
returned, its blitz is the `safe_int` coercion (at least 1), bullet and
rapid default to 0 when their rating is absent (`None`), and seenAt
defaults to 0 when both seen fields are falsy. -/
theorem fetch_user_once_validity_gate :
    ∀ (u : String) (st : ℕ) (body : Option JVal) (data : JVal),
      fetch_user_once u .netError = none ∧
      (st ≠ 200 → fetch_user_once u (.resp st body) = none) ∧
      fetch_user_once u (.resp 200 none) = none ∧
      (fetch_user_once u (.resp 200 (some data))).isSome = profile_gate data ∧
      (∀ rec, fetch_user_once u (.resp 200 (some data)) = some rec →
        rec.blitz = blitz_val data ∧ 1 ≤ rec.blitz ∧
        (perf_rating_raw data "bullet" = .ok .null → rec.bullet = 0) ∧
        (perf_rating_raw data "rapid" = .ok .null → rec.rapid = 0) ∧
        (truthy (obj_get data "seenAt") = false → truthy (obj_get data "seen_at") = false →
          rec.seenAt = 0)) := by
  intro u st body data
  refine ⟨rfl, ?_, rfl, ?_, ?_⟩
  · intro h
    simp [fetch_user_once, fetch_user_onceE, h]
  · rw [fetch_user_once_resp200]
    unfold gate_record
    by_cases hg : profile_gate data = true
    · simp [hg]
    · simp [hg]
  · intro rec h
    rw [fetch_user_once_resp200] at h
    obtain ⟨hg, hbl, hbu, hra, hsa⟩ := gate_record_some h
    refine ⟨hbl, ?_, ?_, ?_, ?_⟩
    · rw [hbl]; exact gate_true_blitz hg
    · intro hnull
      rw [hbu]
      simp [rating_coerced, hnull, pyOr, truthy, safe_int_num_zero]
    · intro hnull
      rw [hra]
      simp [rating_coerced, hnull, pyOr, truthy, safe_int_num_zero]
    · intro h1 h2
      rw [hsa]
      simp [seen_at_val, pyOr, h1, h2, safe_int_num_zero]

/-- A well-formed 200 profile body: blitz 1500, no bullet/rapid, seen at
12345. -/
def c2_wit_body : JVal :=
  .obj [("perfs", .obj [("blitz", .obj [("rating", .num 1500)])]), ("seenAt", .num 12345)]

def c2_wit_rec : PlayerRec :=
  { username := "w", blitz := 1500, bullet := 0, rapid := 0, seenAt := 12345,
    profile := "https://lichess.org/@/w" }

/-- Witness for C2 at a concrete non-200 response and a concrete retained
record. -/
theorem fetch_user_once_validity_gate_witness :
    (404 : ℕ) ≠ 200 ∧ fetch_user_once "w" (.resp 404 none) = none ∧
    fetch_user_once "w" (.resp 200 (some c2_wit_body)) = some c2_wit_rec ∧
    c2_wit_rec.blitz = blitz_val c2_wit_body ∧ 1 ≤ c2_wit_rec.blitz :=
  have h : fetch_user_once "w" (.resp 200 (some c2_wit_body)) = some c2_wit_rec := by decide
  ⟨by decide, (fetch_user_once_validity_gate "w" 404 none c2_wit_body).2.1 (by decide), h,
   ((fetch_user_once_validity_gate "w" 404 none c2_wit_body).2.2.2.2 c2_wit_rec h).1,
   ((fetch_user_once_validity_gate "w" 404 none c2_wit_body).2.2.2.2 c2_wit_rec h).2.1⟩

/-- A 200 response carrying a negative bullet rating next to a valid
blitz rating. -/
def c7_counter_body : JVal :=
  .obj [("perfs", .obj [("blitz", .obj [("rating", .num 1500)]),
                        ("bullet", .obj [("rating", .num (-5))])])]

/-- C7 counterexample: a profile response from which `fetch_user_once`
returns a record whose bullet field is negative. -/
theorem c7_negative_bullet_emitted :
    fetch_user_once "bob" (.resp 200 (some c7_counter_body)) =
      some { username := "bob", blitz := 1500, bullet := -5, rapid := 0, seenAt := 0,
             profile := "https://lichess.org/@/bob" } ∧
    (-5 : ℤ) < 0 :=
  ⟨by decide, by decide⟩

/-- C7 (amended): every record emitted by `fetch_user_once` has a positive
(integer) blitz field; its bullet and rapid fields are exactly the
`safe_int` coercions of the supplied ratings (0 when absent), so they are
non-negative whenever those coercions are — a negative supplied rating
passes through unchanged. -/
theorem emitted_record_rating_bounds :
    ∀ (u : String) (input : FetchInput) (data : JVal) (rec : PlayerRec),
      (fetch_user_once u input = some rec → 1 ≤ rec.blitz) ∧
      (fetch_user_once u (.resp 200 (some data)) = some rec →
        rec.bullet = rating_coerced data "bullet" ∧ rec.rapid = rating_coerced data "rapid" ∧
        (0 ≤ rating_coerced data "bullet" → 0 ≤ rec.bullet) ∧
        (0 ≤ rating_coerced data "rapid" → 0 ≤ rec.rapid)) := by
  intro u input data rec
  constructor
  · intro h
    match input with
    | .netError => simp [fetch_user_once, fetch_user_onceE] at h
    | .resp st body =>
      by_cases hst : st = 200
      · subst hst
        match body with
        | none => simp [fetch_user_once, fetch_user_onceE] at h
        | some d =>
          rw [fetch_user_once_resp200] at h
          obtain ⟨hg, hbl, -, -, -⟩ := gate_record_some h
          rw [hbl]
          exact gate_true_blitz hg
      · simp [fetch_user_once, fetch_user_onceE, hst] at h
  · intro h
    rw [fetch_user_once_resp200] at h
    obtain ⟨-, -, hbu, hra, -⟩ := gate_record_some h
    exact ⟨hbu, hra, fun h0 => hbu ▸ h0, fun h0 => hra ▸ h0⟩

/-- A 200 response with non-negative bullet/rapid ratings. -/
def c7_wit_body : JVal :=
  .obj [("perfs", .obj [("blitz", .obj [("rating", .num 1500)]),
                        ("bullet", .obj [("rating", .num 3)])])]

def c7_wit_rec : PlayerRec :=
  { username := "w7", blitz := 1500, bullet := 3, rapid := 0, seenAt := 0,
    profile := "https://lichess.org/@/w7" }

/-- Witness for C7 at a concrete retained record: positive blitz and
non-negative bullet/rapid. -/
theorem emitted_record_rating_bounds_witness :
    fetch_user_once "w7" (.resp 200 (some c7_wit_body)) = some c7_wit_rec ∧
    1 ≤ c7_wit_rec.blitz ∧ 0 ≤ c7_wit_rec.bullet ∧ 0 ≤ c7_wit_rec.rapid :=
  have h : fetch_user_once "w7" (.resp 200 (some c7_wit_body)) = some c7_wit_rec := by decide
  ⟨h,
   (emitted_record_rating_bounds "w7" (.resp 200 (some c7_wit_body)) c7_wit_body c7_wit_rec).1 h,
   ((emitted_record_rating_bounds "w7" (.resp 200 (some c7_wit_body)) c7_wit_body c7_wit_rec).2 h).2.2.1
     (by decide),
   ((emitted_record_rating_bounds "w7" (.resp 200 (some c7_wit_body)) c7_wit_body c7_wit_rec).2 h).2.2.2
     (by decide)⟩

/-- C8: the single-attempt fetcher never propagates an exception: whatever
the interaction (network error, any status, any body shape), the `except`
handler turns every raising run of the `try` body into `None`, a
non-raising run is passed through, and the overall result is always either
a record or `None`. -/
theorem fetch_user_once_never_throws :
    ∀ (u : String) (input : FetchInput),
      (∀ r, fetch_user_onceE u input = .ok r → fetch_user_once u input = r) ∧
      (∀ e, fetch_user_onceE u input = .error e → fetch_user_once u input = none) ∧
      (fetch_user_once u input = none ∨ ∃ rec, fetch_user_once u input = some rec) := by
  intro u input
  refine ⟨?_, ?_, ?_⟩
  · intro r h
    simp [fetch_user_once, h]
  · intro e h
    simp [fetch_user_once, h]
  · cases h : fetch_user_once u input with
    | none => exact .inl rfl
    | some rec => exact .inr ⟨rec, rfl⟩

/-- Witness for C8 at a concrete raising interaction. -/
theorem fetch_user_once_never_throws_witness :
    fetch_user_onceE "x" .netError = .error () ∧ fetch_user_once "x" .netError = none :=
  ⟨rfl, (fetch_user_once_never_throws "x" .netError).2.1 () rfl⟩

/-! ## Claim C1: deduplication tie-break -/

/-- Colliding record with rating sum 100, seen earlier (1 day ago). -/
def c1_sum100 : GPlayer :=
  { username := "U", name := "", profile := "", blitz := some 50, bullet := some 30,
    rapid := some 20, seenAt := some 1000,
    recent_blitz_diff := none, recent_bullet_diff := none, recent_rapid_diff := none }

/-- Colliding record with rating sum 90, seen later (1 hour ago). -/
def c1_sum90 : GPlayer :=
  { username := "U", name := "", profile := "", blitz := some 50, bullet := some 30,
    rapid := some 10, seenAt := some 2000,
    recent_blitz_diff := none, recent_bullet_diff := none, recent_rapid_diff := none }

/-- C1: the dedup loop's replacement condition is a plain disjunction
(`score(p) > score(old) or seenAt(p) > seenAt(old)`), so a record with a
strictly lower rating sum but a more recent `seenAt` replaces the kept
record: with the 100-sum record processed first the 90-sum record wins,
while in the opposite order the 100-sum record wins — the outcome depends
on processing order, contradicting both halves of the claim. -/
theorem c1_dedup_order_dependent :
    gscore c1_sum100 = 100 ∧ gscore c1_sum90 = 90 ∧
    c1_sum100.seenAt.getD 0 < c1_sum90.seenAt.getD 0 ∧
    dedup [c1_sum100, c1_sum90] = [("u", c1_sum90)] ∧
    dedup [c1_sum90, c1_sum100] = [("u", c1_sum100)] :=
  ⟨by decide, by decide, by decide, by decide, by decide⟩

/-! ## Claim C3: activity filter boundary -/

lemma age_div_le_iff (a d : ℤ) :
    ((a : ℚ) / (24 * 3600 * 1000) ≤ (d : ℚ)) ↔ a ≤ d * 86400000 := by
  rw [div_le_iff₀ (by norm_num : (0 : ℚ) < 24 * 3600 * 1000)]
  have hc : ((d : ℚ) * (24 * 3600 * 1000)) = ((d * 86400000 : ℤ) : ℚ) := by
    push_cast
    ring
  rw [hc]
  exact Int.cast_le

/-- A `ranking.py` record with `seenAt = 0`. -/
def c3_zero_player : PlayerRec :=
  { username := "z", blitz := 1, bullet := 0, rapid := 0, seenAt := 0, profile := "" }

/-- C3 counterexample: in `load_players` of `src/ranking.py` the filter is
`seenAt >= now - window`, so with a now/window pair whose cutoff is
non-positive a record with `seenAt = 0` is retained — `seenAt = 0` is not
dropped for every now/window pair. -/
theorem c3_zero_seen_kept_when_cutoff_nonpositive :
    cutoff_ms 1000 30 < 0 ∧
    load_players_filter 1000 30 [c3_zero_player] = [c3_zero_player] :=
  ⟨by decide, by decide⟩

/-- C3 (amended): for every now/window pair, both activity filters retain a
record seen exactly at `now - window` and drop one seen a millisecond
earlier (for `active_since_days` the boundary record additionally needs a
nonzero `seenAt`, since falsy `seenAt` is rejected first);
`active_since_days` drops `seenAt = 0` (or absent) for every now/window
pair, while the `load_players` filter drops `seenAt = 0` exactly when the
cutoff `now - window` is positive and keeps it when the cutoff is
non-positive. -/
theorem activity_boundary :
    ∀ nowMs days : ℤ,
      (∀ p : PlayerRec, p.seenAt = cutoff_ms nowMs days →
        load_players_filter nowMs days [p] = [p]) ∧
      (∀ p : PlayerRec, p.seenAt = cutoff_ms nowMs days - 1 →
        load_players_filter nowMs days [p] = []) ∧
      (∀ p : PlayerRec, p.seenAt = 0 → 0 < cutoff_ms nowMs days →
        load_players_filter nowMs days [p] = []) ∧
      (∀ p : PlayerRec, p.seenAt = 0 → cutoff_ms nowMs days ≤ 0 →
        load_players_filter nowMs days [p] = [p]) ∧
      (∀ p : GPlayer, p.seenAt = some (cutoff_ms nowMs days) → cutoff_ms nowMs days ≠ 0 →
        active_since_days nowMs days p = true) ∧
      (∀ p : GPlayer, p.seenAt = some (cutoff_ms nowMs days - 1) →
        active_since_days nowMs days p = false) ∧
      (∀ p : GPlayer, p.seenAt = some 0 ∨ p.seenAt = none →
        active_since_days nowMs days p = false) := by
  intro nowMs days
  refine ⟨?_, ?_, ?_, ?_, ?_, ?_, ?_⟩
  · intro p hp
    simp [load_players_filter, hp]
  · intro p hp
    simp only [load_players_filter, List.filter, hp]
    rw [decide_eq_false (by omega : ¬(cutoff_ms nowMs days ≤ cutoff_ms nowMs days - 1))]
  · intro p hp hc
    simp only [load_players_filter, List.filter, hp]
    rw [decide_eq_false (by omega : ¬(cutoff_ms nowMs days ≤ 0))]
  · intro p hp hc
    simp only [load_players_filter, List.filter, hp]
    rw [decide_eq_true (by omega : cutoff_ms nowMs days ≤ 0)]
  · intro p hp hne
    unfold active_since_days
    rw [hp]
    simp only [if_neg hne]
    rw [decide_eq_true_eq, age_div_le_iff]
    unfold cutoff_ms
    omega
  · intro p hp
    unfold active_since_days
    rw [hp]
    by_cases h0 : cutoff_ms nowMs days - 1 = 0
    · simp only [if_pos h0]
    · simp only [if_neg h0]
      rw [decide_eq_false_iff_not, age_div_le_iff]
      unfold cutoff_ms
      omega
  · intro p hp
    unfold active_since_days
    rcases hp with h | h <;> rw [h]
    simp

def c3_wit_boundary : PlayerRec :=
  { username := "b", blitz := 1, bullet := 0, rapid := 0, seenAt := 4997408000000, profile := "" }

def c3_wit_older : PlayerRec :=
  { username := "o", blitz := 1, bullet := 0, rapid := 0, seenAt := 4997407999999, profile := "" }

def c3_wit_gb : GPlayer :=
  { username := "b", name := "", profile := "", blitz := some 1, bullet := none, rapid := none,
    seenAt := some 4997408000000,
    recent_blitz_diff := none, recent_bullet_diff := none, recent_rapid_diff := none }

def c3_wit_gz : GPlayer :=
  { username := "z", name := "", profile := "", blitz := some 1, bullet := none, rapid := none,
    seenAt := some 0,
    recent_blitz_diff := none, recent_bullet_diff := none, recent_rapid_diff := none }

/-- Witness for C3 at a concrete clock (the cutoff is 4997408000000 ms). -/
theorem activity_boundary_witness :
    load_players_filter 5000000000000 30 [c3_wit_boundary] = [c3_wit_boundary] ∧
    load_players_filter 5000000000000 30 [c3_wit_older] = [] ∧
    active_since_days 5000000000000 30 c3_wit_gb = true ∧
    active_since_days 5000000000000 30 c3_wit_gz = false :=
  ⟨(activity_boundary 5000000000000 30).1 c3_wit_boundary (by decide),
   (activity_boundary 5000000000000 30).2.1 c3_wit_older (by decide),
   (activity_boundary 5000000000000 30).2.2.2.2.1 c3_wit_gb (by decide) (by decide),
   (activity_boundary 5000000000000 30).2.2.2.2.2.2 c3_wit_gz (Or.inl (by decide))⟩

/-! ## Claim C9: retry exhaustion -/

lemma tryAttempts_none {f : ℕ → Option PlayerRec} (h : ∀ k, f k = none) :
    ∀ (n start : ℕ), tryAttempts f start n = none := by
  intro n
  induction n with
  | zero => intro start; rfl
  | succ m ih => intro start; simp [tryAttempts, h, ih]

lemma filterMap_skip {β : Type} (F : String → Option β) (u : String) (hF : F u = none) :
    ∀ ms : List String, ms.filterMap F = (ms.filter (fun m => m ≠ u)).filterMap F := by
  intro ms
  induction ms with
  | nil => rfl
  | cons m rest ih =>
    by_cases hm : m = u
    · subst hm
      simp [List.filterMap_cons, List.filter_cons, hF, ih]
    · simp [List.filterMap_cons, List.filter_cons, hm, ih]

lemma attemptsUsed_le (f : ℕ → Option PlayerRec) :
    ∀ (n start : ℕ), attemptsUsed f start n ≤ n := by
  intro n
  induction n with
  | zero => intro start; exact Nat.le_refl 0
  | succ m ih =>
    intro start
    cases h : f start with
    | some r => simp [attemptsUsed, h]
    | none =>
      simp only [attemptsUsed, h]
      have := ih (start + 1)
      omega

/-- C9: a username whose single-attempt fetcher fails on every attempt is
simply absent from the fetched player list — the run is as if the username
were not on the roster — and the per-username attempt count is bounded by
`RETRY_ATTEMPTS` concurrent-phase attempts plus `RETRY_ATTEMPTS + 1`
sequential-phase attempts. -/
theorem retry_exhaustion_silent :
    ∀ (members : List String) (oracle : String → ℕ → Option PlayerRec) (u : String),
      ((∀ k, oracle u k = none) →
        load_players_fetch members oracle =
          load_players_fetch (members.filter (fun m => m ≠ u)) oracle) ∧
      (∀ f : ℕ → Option PlayerRec, total_attempts f ≤ 2 * RETRY_ATTEMPTS + 1) := by
  intro members oracle u
  constructor
  · intro h
    have hr : fetch_user_with_retries (oracle u) = none := tryAttempts_none h _ _
    have hs : sequential_retry (oracle u) = none := tryAttempts_none h _ _
    unfold load_players_fetch
    by_cases hm : members.isEmpty
    · rw [List.isEmpty_iff.mp hm]
      rfl
    · by_cases hf : (members.filter (fun m => m ≠ u)).isEmpty
      · rw [if_neg (by simpa using hm), if_pos hf]
        have hall : ∀ m ∈ members, m = u := by
          intro m hmem
          have := List.filter_eq_nil_iff.mp (List.isEmpty_iff.mp hf) m hmem
          simpa using this
        have hp1 : members.filterMap (fun m => fetch_user_with_retries (oracle m)) = [] := by
          rw [List.filterMap_eq_nil_iff]
          intro m hmem
          rw [hall m hmem, hr]
        have hp2 : (members.filter
              (fun m => (fetch_user_with_retries (oracle m)).isNone)).filterMap
              (fun m => sequential_retry (oracle m)) = [] := by
          rw [List.filterMap_eq_nil_iff]
          intro m hmem
          rw [hall m (List.mem_of_mem_filter hmem), hs]
        rw [hp1, hp2]
        rfl
      · rw [if_neg (by simpa using hm), if_neg (by simpa using hf)]
        have h1 : members.filterMap (fun m => fetch_user_with_retries (oracle m)) =
            (members.filter (fun m => m ≠ u)).filterMap
              (fun m => fetch_user_with_retries (oracle m)) :=
          filterMap_skip _ u hr members
        have h2 : (members.filter
              (fun m => (fetch_user_with_retries (oracle m)).isNone)).filterMap
              (fun m => sequential_retry (oracle m)) =
            ((members.filter (fun m => m ≠ u)).filter
              (fun m => (fetch_user_with_retries (oracle m)).isNone)).filterMap
              (fun m => sequential_retry (oracle m)) := by
          rw [filterMap_skip (fun m => sequential_retry (oracle m)) u hs]
          congr 1
          rw [List.filter_filter, List.filter_filter]
          apply List.filter_congr
          intro m hm
          rw [Bool.and_comm]
        rw [h1, h2]
  · intro f
    have ha := attemptsUsed_le f RETRY_ATTEMPTS 1
    have hb := attemptsUsed_le f (RETRY_ATTEMPTS + 1) (RETRY_ATTEMPTS + 1)
    unfold total_attempts
    split
    · omega
    · omega

/-- Witness for C9: an always-`None` fetcher yields an empty player list
for a one-user roster, with the attempt bound met. -/
theorem retry_exhaustion_silent_witness :
    load_players_fetch ["bob"] (fun _ _ => none) = [] ∧
    total_attempts (fun _ => none) ≤ 2 * RETRY_ATTEMPTS + 1 :=
  have h := (retry_exhaustion_silent ["bob"] (fun _ _ => none) "bob").1 (fun _ => rfl)
  ⟨by rw [h]; rfl,
   (retry_exhaustion_silent ["bob"] (fun _ _ => none) "bob").2 (fun _ => none)⟩

/-! ## Claim C10: empty player list served as "not loaded" -/

/-- C10: `/api/players` answers with the 503 "not loaded" error exactly
whenever the in-memory player list is empty — including when a completed
load produced zero active players — so an empty ranking is never served as
a 200 response and is indistinguishable from data never having been
loaded. -/
theorem api_players_empty_not_loaded :
    ∀ (loadedAt : ℤ) (args : Args) (players : List PlayerRec)
      (members : List String) (oracle : String → ℕ → Option PlayerRec) (nowMs : ℤ),
      api_players [] loadedAt args = .notLoaded ∧
      (∀ pl, api_players players loadedAt args = .ok pl → players ≠ []) ∧
      (load_players members oracle nowMs = [] →
        api_players (load_players members oracle nowMs) loadedAt args = .notLoaded) := by
  intro loadedAt args players members oracle nowMs
  refine ⟨rfl, ?_, ?_⟩
  · intro pl h hnil
    rw [hnil] at h
    exact ApiResponse.noConfusion (show ApiResponse.notLoaded = .ok pl from h)
  · intro hempty
    rw [hempty]
    rfl

/-- Witness for C10: a load over an empty roster produces an empty list and
the endpoint then answers "not loaded". -/
theorem api_players_empty_not_loaded_witness :
    api_players (load_players [] (fun _ _ => none) 0) 0 ⟨none, none, none, none⟩ = .notLoaded :=
  (api_players_empty_not_loaded 0 ⟨none, none, none, none⟩ [] [] (fun _ _ => none) 0).2.2 rfl

/-! ## Claim C4: ranking sort order -/

lemma triple_le_total (x y : ℤ × ℤ × ℤ) : triple_le x y = true ∨ triple_le y x = true := by
  simp only [triple_le, Bool.or_eq_true, Bool.and_eq_true, decide_eq_true_eq]
  omega

lemma triple_le_trans (x y z : ℤ × ℤ × ℤ) (hxy : triple_le x y = true)
    (hyz : triple_le y z = true) : triple_le x z = true := by
  simp only [triple_le, Bool.or_eq_true, Bool.and_eq_true, decide_eq_true_eq] at hxy hyz ⊢
  omega

lemma active_sorted_sorted (l : List GPlayer) :
    List.Sorted (fun a b => triple_le (rank_key a) (rank_key b) = true) (active_sorted l) :=
  @List.sorted_insertionSort GPlayer (fun a b => triple_le (rank_key a) (rank_key b) = true) _
    ⟨fun a b => triple_le_total (rank_key a) (rank_key b)⟩
    ⟨fun _ _ _ h h2 => triple_le_trans _ _ _ h h2⟩ l

@[simp] lemma attach_deltas_length (prev : List PrevPlayer) (l : List GPlayer) :
    (attach_deltas prev l).length = l.length := by
  simp [attach_deltas]

/-- C4: the ranking sort is a permutation of its input ordered by strictly
descending blitz, then descending bullet, then descending rapid: for any
two positions `i < j` of the sorted list, the earlier record has a
greater-or-equal blitz, a greater-or-equal bullet when blitz ties, and a
greater-or-equal rapid when blitz and bullet tie (so a strictly higher
value in the first differing key comes first); the `position` field
attached afterwards is the 1-based index in this order. -/
theorem ranking_sort_order :
    ∀ (l : List GPlayer) (prev : List PrevPlayer),
      (active_sorted l).Perm l ∧
      (∀ i j (hi : i < (active_sorted l).length) (hj : j < (active_sorted l).length), i < j →
        ((active_sorted l).get ⟨j, hj⟩).blitz.getD 0 ≤
            ((active_sorted l).get ⟨i, hi⟩).blitz.getD 0 ∧
        (((active_sorted l).get ⟨i, hi⟩).blitz.getD 0 =
            ((active_sorted l).get ⟨j, hj⟩).blitz.getD 0 →
          ((active_sorted l).get ⟨j, hj⟩).bullet.getD 0 ≤
            ((active_sorted l).get ⟨i, hi⟩).bullet.getD 0) ∧
        (((active_sorted l).get ⟨i, hi⟩).blitz.getD 0 =
            ((active_sorted l).get ⟨j, hj⟩).blitz.getD 0 →
          ((active_sorted l).get ⟨i, hi⟩).bullet.getD 0 =
            ((active_sorted l).get ⟨j, hj⟩).bullet.getD 0 →
          ((active_sorted l).get ⟨j, hj⟩).rapid.getD 0 ≤
            ((active_sorted l).get ⟨i, hi⟩).rapid.getD 0)) ∧
      (∀ i (hi : i < (attach_deltas prev (active_sorted l)).length),
        ((attach_deltas prev (active_sorted l)).get ⟨i, hi⟩).position = i + 1) := by
  intro l prev
  refine ⟨List.perm_insertionSort _ l, ?_, ?_⟩
  · intro i j hi hj hij
    have hs := active_sorted_sorted l
    have hr := List.pairwise_iff_get.mp hs ⟨i, hi⟩ ⟨j, hj⟩ hij
    simp only [triple_le, rank_key, Bool.or_eq_true, Bool.and_eq_true, decide_eq_true_eq] at hr
    refine ⟨by omega, fun h1 => by omega, fun h1 h2 => by omega⟩
  · intro i hi
    have hi' : i < (active_sorted l).length := by
      simpa using hi
    simp [attach_deltas, List.get_eq_getElem]

def c4_g1 : GPlayer :=
  { username := "a", name := "", profile := "", blitz := some 100, bullet := some 5,
    rapid := some 5, seenAt := some 1,
    recent_blitz_diff := none, recent_bullet_diff := none, recent_rapid_diff := none }

def c4_g2 : GPlayer :=
  { username := "b", name := "", profile := "", blitz := some 200, bullet := some 1,
    rapid := some 1, seenAt := some 1,
    recent_blitz_diff := none, recent_bullet_diff := none, recent_rapid_diff := none }

def c4_g3 : GPlayer :=
  { username := "c", name := "", profile := "", blitz := some 100, bullet := some 9,
    rapid := some 9, seenAt := some 1,
    recent_blitz_diff := none, recent_bullet_diff := none, recent_rapid_diff := none }

def c4_list : List GPlayer := [c4_g1, c4_g2, c4_g3]

/-- Witness for C4 on a concrete three-player list. -/
theorem ranking_sort_order_witness :
    (active_sorted c4_list).Perm c4_list ∧
    ((active_sorted c4_list).get ⟨1, by decide⟩).blitz.getD 0 ≤
      ((active_sorted c4_list).get ⟨0, by decide⟩).blitz.getD 0 ∧
    ((attach_deltas [] (active_sorted c4_list)).get ⟨0, by decide⟩).position = 1 :=
  ⟨(ranking_sort_order c4_list []).1,
   ((ranking_sort_order c4_list []).2.1 0 1 (by decide) (by decide) (by decide)).1,
   (ranking_sort_order c4_list []).2.2 0 (by decide)⟩

/-! ## Claim C5: delta computation against the previous snapshot -/

/-- C5: per ranked record, `position` is the 1-based index; when the
normalized username is present in the previous snapshot, every rating
delta is current minus previous and the position change is the previous
rank minus the current rank; when absent, rating deltas fall back to the
rating-history diffs (0 when those are `None`) and the position change is
`None`, distinct from 0. -/
theorem delta_computation :
    ∀ (prev : List PrevPlayer) (l : List GPlayer) (i : ℕ) (hi : i < l.length)
      (p : GPlayer) (o : OutPlayer),
      l.get ⟨i, hi⟩ = p →
      (attach_deltas prev l).get ⟨i, by rw [attach_deltas_length]; exact hi⟩ = o →
      o.position = i + 1 ∧
      (∀ pp prevPos, prev_lookup prev (norm_key p.username) = some (pp, prevPos) →
        o.blitz_diff = p.blitz.getD 0 - pp.blitz.getD 0 ∧
        o.bullet_diff = p.bullet.getD 0 - pp.bullet.getD 0 ∧
        o.rapid_diff = p.rapid.getD 0 - pp.rapid.getD 0 ∧
        o.position_change = some ((prevPos : ℤ) - ((i : ℤ) + 1))) ∧
      (prev_lookup prev (norm_key p.username) = none →
        o.blitz_diff = p.recent_blitz_diff.getD 0 ∧
        o.bullet_diff = p.recent_bullet_diff.getD 0 ∧
        o.rapid_diff = p.recent_rapid_diff.getD 0 ∧
        o.position_change = none) := by
  intro prev l i hi p o hp ho
  subst hp
  subst ho
  refine ⟨?_, ?_, ?_⟩
  · simp [attach_deltas, List.get_eq_getElem]
  · intro pp prevPos hprev
    simp only [List.get_eq_getElem] at hprev
    simp [attach_deltas, List.getElem_map, List.getElem_enum, hprev]
  · intro hprev
    simp only [List.get_eq_getElem] at hprev
    simp [attach_deltas, List.getElem_map, List.getElem_enum, hprev]

def c5_prev : List PrevPlayer :=
  [ { username := "x1", blitz := some 2000, bullet := none, rapid := none },
    { username := "x2", blitz := some 1900, bullet := none, rapid := none },
    { username := "alice", blitz := some 1480, bullet := some 10, rapid := some 10 } ]

def c5_alice : GPlayer :=
  { username := "alice", name := "Alice", profile := "", blitz := some 1500,
    bullet := some 10, rapid := some 10, seenAt := some 1,
    recent_blitz_diff := none, recent_bullet_diff := none, recent_rapid_diff := none }

def c5_out : OutPlayer := (attach_deltas c5_prev [c5_alice]).get ⟨0, by decide⟩

/-- Witness for C5: alice at previous rank 3 with blitz 1480 and current
rank 1 with blitz 1500 gets `position_change = 2` and `blitz_diff = 20`. -/
theorem delta_computation_witness :
    c5_out.position = 1 ∧ c5_out.blitz_diff = 20 ∧ c5_out.position_change = some 2 := by
  obtain ⟨hpos, hsome, -⟩ :=
    delta_computation c5_prev [c5_alice] 0 (by decide) c5_alice c5_out rfl rfl
  obtain ⟨hb, -, -, hpc⟩ := hsome
    { username := "alice", blitz := some 1480, bullet := some 10, rapid := some 10 } 3
    (by decide)
  exact ⟨hpos, by rw [hb]; decide, by rw [hpc]; decide⟩

/-! ## Claim C6: request-parameter validation of `/api/players` -/

def c6_player : PlayerRec :=
  { username := "a", blitz := 3, bullet := 2, rapid := 1, seenAt := 0, profile := "p" }

/-- C6 counterexample: with `order=banana` the behaviour is the descending
default, but the response echoes the raw string `"banana"`, not the
default `"desc"`; and `per_page=0` is clamped to 1, not restored to the
default 20. -/
theorem c6_invalid_order_echoed_raw :
    api_players [c6_player] 0 ⟨none, some "0", none, some "banana"⟩ =
      .ok { total := 1, page := 1, per_page := 1, sort := "blitz", order := "banana",
            data_loaded_at := 0, items := [c6_player] } ∧
    ("banana" : String) ≠ "desc" ∧ (1 : ℤ) ≠ 20 :=
  ⟨by decide, by decide, by decide⟩

/-- C6 (amended): with data loaded, a request with no parameters is
answered with `page=1, per_page=20, sort="blitz", order="desc"`; an
unparsable `page`/`per_page` falls back to its default and a parsable but
non-positive value is clamped to 1; a sort outside
`{blitz, bullet, rapid, username}` (hence outside the claim's five-element
set, `"position"` included) falls back to `"blitz"` and is echoed as
such; any order other than `"asc"` behaves as the descending default, but
the response echoes the raw order string rather than the defaulted
value. -/
theorem api_players_param_validation :
    ∀ (players : List PlayerRec) (loadedAt : ℤ) (args : Args),
      players ≠ [] →
      api_players players loadedAt args =
        .ok { total := (api_sorted players (sort_of args.sort)
                (decide (args.order.getD "desc" ≠ "asc"))).length
              page := page_of args.page
              per_page := per_page_of args.per_page
              sort := sort_of args.sort
              order := args.order.getD "desc"
              data_loaded_at := loadedAt
              items := ((api_sorted players (sort_of args.sort)
                  (decide (args.order.getD "desc" ≠ "asc"))).drop
                    ((page_of args.page - 1) * per_page_of args.per_page).toNat).take
                  (per_page_of args.per_page).toNat } ∧
      (1 ≤ page_of args.page ∧ 1 ≤ per_page_of args.per_page) ∧
      (page_of none = 1 ∧ per_page_of none = 20 ∧ sort_of none = "blitz") ∧
      (∀ s, s ≠ "blitz" → s ≠ "bullet" → s ≠ "rapid" → s ≠ "username" →
        sort_of (some s) = "blitz") ∧
      (∀ s, py_int_of_string? s = none → page_of (some s) = 1 ∧ per_page_of (some s) = 20) ∧
      (∀ s n, py_int_of_string? s = some n → n ≤ 0 →
        page_of (some s) = 1 ∧ per_page_of (some s) = 1) := by
  intro players loadedAt args h
  refine ⟨?_, ⟨?_, ?_⟩, ⟨rfl, rfl, rfl⟩, ?_, ?_, ?_⟩
  · cases players with
    | nil => exact absurd rfl h
    | cons a as => rfl
  · unfold page_of
    cases args.page with
    | none => norm_num
    | some s =>
      cases hq : py_int_of_string? s with
      | none => simp [hq]
      | some n => simp [hq, le_sup_left]
  · unfold per_page_of
    cases args.per_page with
    | none => norm_num
    | some s =>
      cases hq : py_int_of_string? s with
      | none => simp [hq]
      | some n => simp [hq, le_sup_left]
  · intro s h1 h2 h3 h4
    simp [sort_of, h1, h2, h3, h4]
  · intro s hs
    simp [page_of, per_page_of, hs]
  · intro s n hs hn
    simp only [page_of, per_page_of, hs]
    omega

/-- Witness for C6 on a loaded one-player list: defaults with no
parameters, and the `"position"` sort value falling back to `"blitz"`. -/
theorem api_players_param_validation_witness :
    api_players [c6_player] 5 ⟨none, none, some "position", some "banana"⟩ =
      .ok { total := 1, page := 1, per_page := 20, sort := "blitz", order := "banana",
            data_loaded_at := 5, items := [c6_player] } ∧
    api_players [c6_player] 5 ⟨none, none, none, none⟩ =
      .ok { total := 1, page := 1, per_page := 20, sort := "blitz", order := "desc",
            data_loaded_at := 5, items := [c6_player] } ∧
    sort_of (some "position") = "blitz" :=
  have h1 := api_players_param_validation [c6_player] 5
    ⟨none, none, some "position", some "banana"⟩ (by decide)
  have h2 := api_players_param_validation [c6_player] 5 ⟨none, none, none, none⟩ (by decide)
  ⟨h1.1.trans (by decide), h2.1.trans (by decide),
   h1.2.2.2.1 "position" (by decide) (by decide) (by decide) (by decide)⟩
